import Mathlib

/-!
Shallow embedding of the auction test client
(`src/auction-test-client/app.py`, with the variant poller/bidder of
`src/auction-test-client/test_rest.py`).

JSON values and Python dictionaries are modelled by the inductive `Json`;
absent dictionary keys are read as `Json.null` (Python `None`), matching
`dict.get`.  Python exceptions that the code can actually raise on the
modelled paths (`AttributeError` from calling `.get`/`.endswith` on a
non-dictionary/non-string, `TypeError` from set membership or insertion of
an unhashable value, `requests.RequestException` from a network failure)
are modelled explicitly.  A network interaction is modelled by its
observable outcome: `Option Nat` is the HTTP status of the response,
`none` standing for a transport failure (an exception raised by
`requests`).  Outbound HTTP POSTs are collected in lists so that theorems
can speak about which requests a handler issues.
-/

namespace AuctionClient

/-- JSON values / Python objects as delivered by `json.loads` and
`request.get_json`. -/
inductive Json where
  | null
  | bool (b : Bool)
  | num (n : Int)
  | str (s : String)
  | arr (xs : List Json)
  | obj (fields : List (String × Json))

/-- Python truthiness (`bool(x)`) for the modelled values: `None`, `False`,
`0`, `""`, `[]` and `{}` are falsy. -/
def Json.truthy : Json → Bool
  | .null => false
  | .bool b => b
  | .num n => decide (n ≠ 0)
  | .str s => decide (s ≠ "")
  | .arr xs => !xs.isEmpty
  | .obj fs => !fs.isEmpty

/-- Whether a Python value is hashable (may be stored in, or tested against,
a `set`).  Lists and dictionaries are not. -/
def Json.hashable : Json → Bool
  | .arr _ => false
  | .obj _ => false
  | _ => true

/-- Python `str(x)` as used inside f-strings.  Only string identifiers are
exercised by the verified claims; the renderings of composite values are
not observed by any theorem. -/
def Json.pyStr : Json → String
  | .null => "None"
  | .bool b => if b then "True" else "False"
  | .num n => toString n
  | .str s => s
  | .arr _ => "[...]"
  | .obj _ => "{...}"

/-- Python equality as evaluated between a set element and a hashable
candidate (`x == j`), including Python's numeric cross-type equality
`True == 1` and `False == 0` (booleans are integers in Python, and they
hash alike, so set membership identifies them).  A `set` can only ever
hold hashable values, and the client only reaches a membership test after
the candidate proved hashable, so comparisons between two composite
values never occur. -/
def jsonEqHashable : Json → Json → Bool
  | .null, .null => true
  | .bool a, .bool b => a == b
  | .num a, .num b => a == b
  | .str a, .str b => a == b
  | .bool a, .num b => (if a then (1 : Int) else 0) == b
  | .num a, .bool b => a == (if b then (1 : Int) else 0)
  | _, _ => false

/-- Python `d.get(k)` on a dictionary: the value under `k`, else `None`. -/
def pyLookup (fs : List (String × Json)) (k : String) : Json :=
  match fs.find? (fun p => p.1 == k) with
  | some p => p.2
  | none => .null

/-- Python `d.get(k, default)` on a dictionary. -/
def pyLookupD (fs : List (String × Json)) (k : String) (d : Json) : Json :=
  match fs.find? (fun p => p.1 == k) with
  | some p => p.2
  | none => d

/-- Python `k in d` for a dictionary (key membership). -/
def pyHasKey (fs : List (String × Json)) (k : String) : Bool :=
  (fs.find? (fun p => p.1 == k)).isSome

/-- Python `j == "s"` for a string literal on the right: values of another
type compare unequal without an error. -/
def pyEqStr (j : Json) (s : String) : Bool :=
  match j with
  | .str t => t == s
  | _ => false

/-- Python `j == n` for an integer literal on the right. -/
def pyEqNum (j : Json) (n : Int) : Bool :=
  match j with
  | .num m => m == n
  | _ => false

/-- The bid ledger `auctions_bid_on` (a Python `Set[str]` in intent; the
code can in fact insert any hashable value, so elements are `Json`). -/
abbrev Ledger := List Json

/-- Python `j in auctions_bid_on` for a hashable `j`. -/
def ledgerContains (st : Ledger) (j : Json) : Bool :=
  st.any (fun x => jsonEqHashable x j)

/-- Exceptions the modelled paths can raise. -/
inductive PyExc where
  | attributeError
  | typeError
  | requestException
deriving DecidableEq

/-- Process configuration read from environment variables at startup
(`TEST_CLIENT_NAME`, `TEST_CLIENT_BASE_URL`, `AUCTION_HOUSE_BASE_URL`,
`SUPPORTED_JOB_TYPES`). -/
structure Config where
  name : String
  baseUrl : String
  auctionHouseBaseUrl : String
  supported : List String

/-- Python `value.endswith("/")`: the last character is a slash. -/
def endsWithSlash (s : String) : Bool := decide (s.data.getLast? = some '/')

/-- `ensure_trailing_slash` (`app.py`, lines 52-55). -/
def ensure_trailing_slash (value : String) : String :=
  if !(endsWithSlash value) then value ++ "/" else value

/-- `is_supported_job` (`app.py`, lines 58-61): falsy job types are
unsupported; otherwise `not SUPPORTED_JOB_TYPES or job_type in
SUPPORTED_JOB_TYPES` short-circuits, so an empty set supports everything
without a membership test, while a non-empty one evaluates `job_type in
SUPPORTED_JOB_TYPES` — which raises `TypeError` for an unhashable value
and is `False` for any hashable non-string (the set holds only strings,
so the `True == 1` identification cannot make it true). -/
def is_supported_job (cfg : Config) (job_type : Json) : Except PyExc Bool :=
  if !job_type.truthy then .ok false
  else if cfg.supported.isEmpty then .ok true
  else if !job_type.hashable then .error .typeError
  else .ok (match job_type with
    | .str s => cfg.supported.contains s
    | _ => false)

/-- One outbound bid POST (`requests.post(bid_url, json=bid_payload, ...)`
in `place_bid_on_auction`).  `auctionId` is the raw value placed in the
payload; the URL renders it with `str`. -/
structure BidRequest where
  url : String
  auctionId : Json
  bidderName : String
  bidderAuctionHouseUri : String

/-- Observable outcome of `place_bid_on_auction`: the outbound POSTs it
issued (zero or one; there is no retry) and whether it logged success
(exactly a 201 response). -/
structure PlaceBidResult where
  requests : List BidRequest
  success : Bool

/-- The body of the `try` block of `place_bid_on_auction` (`app.py`,
lines 344-387): the POSTs issued so far together with either the normal
result or the exception that escaped to the `except` clause. -/
def place_bid_attempt (cfg : Config) (auction : Json) (net : Option Nat) :
    List BidRequest × Except PyExc Bool :=
  match auction with
  | .obj fields =>
    let auction_id := pyLookup fields "auctionId"
    let auction_house_uri := pyLookup fields "auctionHouseUri"
    let job_type := pyLookup fields "jobType"
    if !auction_id.truthy || !auction_house_uri.truthy then
      ([], .ok false)
    else
      match is_supported_job cfg job_type with
      | .error e => ([], .error e)
      | .ok false => ([], .ok false)
      | .ok true =>
        match auction_house_uri with
        | .str u =>
          let bid_url := ensure_trailing_slash u ++ "auctions/" ++ auction_id.pyStr ++ "/bid"
          let req : BidRequest := ⟨bid_url, auction_id, cfg.name, cfg.baseUrl ++ "/"⟩
          match net with
          | none => ([req], .error .requestException)
          | some code => ([req], .ok (code == 201))
        | _ => ([], .error .attributeError)
  | _ => ([], .error .attributeError)

/-- `place_bid_on_auction` (`app.py`, lines 344-387): the whole body is
wrapped in `try ... except Exception`, so every exception is logged and
the function returns normally. -/
def place_bid_on_auction (cfg : Config) (auction : Json) (net : Option Nat) :
    PlaceBidResult :=
  match place_bid_attempt cfg auction net with
  | (reqs, .ok b) => ⟨reqs, b⟩
  | (reqs, .error _) => ⟨reqs, false⟩

/-- Observable outcome of `handle_mqtt_message`: the ledger afterwards, the
bid POSTs issued, and the exception, if any, that escaped the handler
(only `json.JSONDecodeError` is caught there). -/
structure MqttResult where
  ledger : Ledger
  bids : List BidRequest
  exc : Option PyExc

/-- `handle_mqtt_message` (`app.py`, lines 95-121).  `decoded` is the result
of `json.loads(payload.decode("utf-8"))`: `none` when decoding raised
`json.JSONDecodeError` (which the handler catches with a warning), and
`some d` for the decoded value. -/
def handle_mqtt_message (cfg : Config) (decoded : Option Json) (st : Ledger)
    (net : Option Nat) : MqttResult :=
  match decoded with
  | none => ⟨st, [], none⟩
  | some d =>
    match d with
    | .obj dfs =>
      match pyLookupD dfs "data" (.obj []) with
      | .obj afs =>
        let auction := pyLookup afs "auction"
        if !auction.truthy then ⟨st, [], none⟩
        else
          match auction with
          | .obj afields =>
            let auction_id := pyLookup afields "auctionId"
            let job_type := pyLookup afields "jobType"
            if !auction_id.truthy then ⟨st, [], none⟩
            else if !auction_id.hashable then ⟨st, [], some .typeError⟩
            else if ledgerContains st auction_id then ⟨st, [], none⟩
            else
              match is_supported_job cfg job_type with
              | .error e => ⟨st, [], some e⟩
              | .ok false => ⟨st, [], none⟩
              | .ok true =>
                match pyLookupD afields "auctionHouseUri" (.str cfg.auctionHouseBaseUrl) with
                | .str u =>
                  let auction_house_uri := ensure_trailing_slash u
                  let r := place_bid_on_auction cfg
                    (.obj [("auctionId", auction_id),
                           ("auctionHouseUri", .str auction_house_uri),
                           ("jobType", job_type),
                           ("status", pyLookupD afields "status" (.str "OPEN"))]) net
                  ⟨auction_id :: st, r.requests, none⟩
                | _ => ⟨st, [], some .attributeError⟩
          | _ => ⟨st, [], some .attributeError⟩
      | _ => ⟨st, [], some .attributeError⟩
    | _ => ⟨st, [], some .attributeError⟩

/-- Observable outcome of the `POST /bidders` handler: the ledger
afterwards, the HTTP status returned, the bid POSTs issued, and the echoed
body on success (`none` models the 500 error body). -/
structure PushResult where
  ledger : Ledger
  status : Nat
  bids : List BidRequest
  echoed : Option Json

/-- `handle_auction_started` (`app.py`, lines 130-163), the push-notification
receiver.  It reads `auctionId`, `auctionHouseUri` and `jobType` from the
body, but the auction dictionary it hands to `place_bid_on_auction`
carries only `auctionId`, `auctionHouseUri` and `status` — `jobType` is
not forwarded.  It then adds `auctionId` to the ledger unconditionally and
returns 201 echoing the request body; any exception yields a 500. -/
def handle_auction_started (cfg : Config) (body : Json) (st : Ledger)
    (net : Option Nat) : PushResult :=
  match body with
  | .obj fields =>
    let auction_id := pyLookup fields "auctionId"
    let auction_house_uri := pyLookup fields "auctionHouseUri"
    let auction : Json := .obj [("auctionId", auction_id),
                                ("auctionHouseUri", auction_house_uri),
                                ("status", .str "OPEN")]
    let r := place_bid_on_auction cfg auction net
    if auction_id.hashable then
      ⟨(if ledgerContains st auction_id then st else auction_id :: st), 201,
        r.requests, some body⟩
    else
      ⟨st, 500, r.requests, none⟩
  | _ => ⟨st, 500, [], none⟩

/-- The per-auction processing loop of one successful poll cycle
(`app.py`, lines 312-330).  An `AttributeError` on a non-dictionary
element, a `TypeError` from testing an unhashable `auctionId` against
the ledger, or a `TypeError` raised by `is_supported_job` on an
unhashable truthy `jobType`, aborts the remainder of the loop (the
surrounding `except` swallows it); auctions already processed keep their
effects. -/
def poll_process_auctions (cfg : Config) (net : Option Nat) :
    List Json → Ledger → Ledger × List BidRequest
  | [], st => (st, [])
  | a :: rest, st =>
    match a with
    | .obj fields =>
      let auction_id := pyLookup fields "auctionId"
      let status := pyLookup fields "status"
      let job_type := pyLookup fields "jobType"
      if pyEqStr status "OPEN" && auction_id.truthy then
        if auction_id.hashable then
          if !(ledgerContains st auction_id) then
            match is_supported_job cfg job_type with
            | .error _ => (st, [])
            | .ok false => poll_process_auctions cfg net rest st
            | .ok true =>
              let r := place_bid_on_auction cfg a net
              let res := poll_process_auctions cfg net rest (auction_id :: st)
              (res.1, r.requests ++ res.2)
          else
            poll_process_auctions cfg net rest st
        else (st, [])
      else
        poll_process_auctions cfg net rest st
    | _ => (st, [])

/-- Processing of the body of a 200 response to the poll GET
(`app.py`, lines 307-330): `auctions = response.json()` is iterated
directly.  Only a JSON array yields auction elements; iterating a
dictionary yields its string keys, whose `.get` raises, and `len` of the
other values raises, in every case aborting the cycle with nothing
processed. -/
def poll_handle_body (cfg : Config) (net : Option Nat) (body : Json)
    (st : Ledger) : Ledger × List BidRequest :=
  match body with
  | .arr xs => poll_process_auctions cfg net xs st
  | _ => (st, [])

/-- A job record stored in `active_jobs` (`app.py`, lines 183-188). -/
structure JobRecord where
  jobType : Json
  inputData : Json
  auctionHouseUri : Json
  receivedAt : String

/-- The shared mutable state of the client: the bid ledger and the
`active_jobs` table (insertion-keyed by the auction id of the URL path). -/
structure ClientState where
  ledger : Ledger
  jobs : List (String × JobRecord)

/-- Python `active_jobs[auction_id] = record` (insert or overwrite). -/
def jobsStore (jobs : List (String × JobRecord)) (k : String) (v : JobRecord) :
    List (String × JobRecord) :=
  (k, v) :: jobs.filter (fun p => !(p.1 == k))

/-- Python `active_jobs.get(auction_id)`-style lookup. -/
def jobsLookup (jobs : List (String × JobRecord)) (k : String) : Option JobRecord :=
  (jobs.find? (fun p => p.1 == k)).map (fun p => p.2)

/-- Python `if auction_id in active_jobs: del active_jobs[auction_id]`
(`app.py`, lines 230-231). -/
def jobsRemove (jobs : List (String × JobRecord)) (k : String) :
    List (String × JobRecord) :=
  if (jobs.find? (fun p => p.1 == k)).isSome then
    jobs.filter (fun p => !(p.1 == k))
  else jobs

/-- `execute_job` (`app.py`, lines 255-263): a fixed message for every job
type. -/
def execute_job (job_type : Json) (input_data : Json) : String :=
  "Cloudflare is having a little issue at the moment, grab a coffee and come back in 5 days"

/-- One outbound job-result POST (`app.py`, lines 199-222).  The payload is
built before the URI is normalized, so `auctionHouseUri` inside the
payload is the raw value from the request body while the URL uses the
normalized form. -/
structure ResultPost where
  url : String
  auctionId : String
  auctionHouseUri : Json
  jobType : Json
  inputData : Json
  outputData : String

/-- Observable outcome of the `POST /bidders/{auctionId}/job` handler. -/
structure JobResponse where
  state : ClientState
  status : Nat
  posts : List ResultPost

/-- `handle_job_assignment` (`app.py`, lines 166-252).  The job record is
stored before anything can fail; a 201 from the downstream result POST
deletes it and the handler returns 201; any other downstream status, a
transport failure, or an exception (for instance `auction_house_uri` not
being a string when `.endswith` is called) leaves the record in place and
returns 500.  `now` stands for `datetime.now().isoformat()`. -/
def handle_job_assignment (cfg : Config) (auction_id : String) (body : Json)
    (now : String) (net : Option Nat) (st : ClientState) : JobResponse :=
  match body with
  | .obj fields =>
    let job_type := pyLookup fields "jobType"
    let input_data := pyLookup fields "inputData"
    let auction_house_uri := pyLookup fields "auctionHouseUri"
    let record : JobRecord := ⟨job_type, input_data, auction_house_uri, now⟩
    let jobs1 := jobsStore st.jobs auction_id record
    let output_data := execute_job job_type input_data
    match auction_house_uri with
    | .str u =>
      let u2 := if !(endsWithSlash u) then u ++ "/" else u
      let result_url := u2 ++ "auctions/" ++ auction_id ++ "/job"
      let post : ResultPost :=
        ⟨result_url, auction_id, auction_house_uri, job_type, input_data, output_data⟩
      match net with
      | none => ⟨⟨st.ledger, jobs1⟩, 500, [post]⟩
      | some code =>
        if code == 201 then ⟨⟨st.ledger, jobsRemove jobs1 auction_id⟩, 201, [post]⟩
        else ⟨⟨st.ledger, jobs1⟩, 500, [post]⟩
    | _ => ⟨⟨st.ledger, jobs1⟩, 500, []⟩
  | _ => ⟨st, 500, []⟩

/-- `place_bid_on_auction` of the `test_rest.py` variant (lines 362-413):
the only guard is a truthy `auctionId`, the URL is built from the
configured `AUCTION_HOUSE_BASE_URL` (deliberately ignoring the auction's
own `auctionHouseUri`) without normalization, and the payload is the
versioned envelope.  The response-shape assertions on a 201 only affect
logging. -/
def test_rest_place_bid (cfg : Config) (auction : Json) (net : Option Nat) :
    PlaceBidResult :=
  match auction with
  | .obj fields =>
    let auction_id := pyLookup fields "auctionId"
    if !auction_id.truthy then ⟨[], false⟩
    else
      let bid_url := cfg.auctionHouseBaseUrl ++ "/auctions/" ++ auction_id.pyStr ++ "/bid"
      let req : BidRequest := ⟨bid_url, auction_id, cfg.name, cfg.baseUrl ++ "/"⟩
      match net with
      | none => ⟨[req], false⟩
      | some code => ⟨[req], code == 201⟩
  | _ => ⟨[], false⟩

/-- The per-element assertions of the `test_rest.py` poller (lines 311-317):
each auction must be a dictionary carrying `status` (one of `OPEN` or
`CLOSED`), `auctionHouseUri`, `jobType` and `deadline`.  On a non-dictionary
element the membership test either fails or errors; either way the cycle is
aborted, which the caller treats as the assertion failing. -/
def auctionEntryValid (a : Json) : Bool :=
  match a with
  | .obj fs =>
    pyHasKey fs "status" &&
      (pyEqStr (pyLookup fs "status") "OPEN" || pyEqStr (pyLookup fs "status") "CLOSED") &&
      pyHasKey fs "auctionHouseUri" && pyHasKey fs "jobType" && pyHasKey fs "deadline"
  | _ => false

/-- The bidding loop of the `test_rest.py` poller (lines 326-348): only
`OPEN`, not-yet-bid auctions whose `jobType` equals the literal
`"testJob"` are bid on. -/
def test_rest_process_auctions (cfg : Config) (net : Option Nat) :
    List Json → Ledger → Ledger × List BidRequest
  | [], st => (st, [])
  | a :: rest, st =>
    match a with
    | .obj fields =>
      let auction_id := pyLookup fields "auctionId"
      let status := pyLookup fields "status"
      let job_type := pyLookup fields "jobType"
      if pyEqStr status "OPEN" && auction_id.truthy then
        if auction_id.hashable then
          if !(ledgerContains st auction_id) && pyEqStr job_type "testJob" then
            let r := test_rest_place_bid cfg a net
            let res := test_rest_process_auctions cfg net rest (auction_id :: st)
            (res.1, r.requests ++ res.2)
          else
            test_rest_process_auctions cfg net rest st
        else (st, [])
      else
        test_rest_process_auctions cfg net rest st
    | _ => (st, [])

/-- Processing of the body of a 200 response by the `test_rest.py` poller
(lines 293-348): the body must be the versioned envelope
`{version: 1, data: {auctions: [...]}}` and every element must pass the
per-element assertions, otherwise an `AssertionError` aborts the cycle
before any bid; the intervening per-auction detail fetches
(`fetch_and_validate_auction`) swallow all their errors and touch neither
the ledger nor the bids. -/
def test_rest_poll_handle_body (cfg : Config) (net : Option Nat) (body : Json)
    (st : Ledger) : Ledger × List BidRequest :=
  match body with
  | .obj fields =>
    if pyEqNum (pyLookup fields "version") 1 then
      match pyLookup fields "data" with
      | .obj dfs =>
        match pyLookup dfs "auctions" with
        | .arr xs =>
          if xs.all auctionEntryValid then test_rest_process_auctions cfg net xs st
          else (st, [])
        | _ => (st, [])
      | _ => (st, [])
    else (st, [])
  | _ => (st, [])

/-! Concrete instances used by witnesses and counterexamples. -/

/-- The default configuration of `app.py`: name `test-client`, own base URL
`http://localhost:8091`, auction house `http://localhost:8090`, supported
job types `{testJob}`. -/
def cfgTest : Config :=
  ⟨"test-client", "http://localhost:8091", "http://localhost:8090", ["testJob"]⟩

/-- The push-notification body of the specified scenario:
`{auctionId: "a1", auctionHouseUri: "http://house", jobType: "testJob"}`. -/
def pushBodyA1 : Json :=
  .obj [("auctionId", .str "a1"), ("auctionHouseUri", .str "http://house"),
        ("jobType", .str "testJob")]

/-- An open, supported auction element as returned by the list endpoint. -/
def openAuctionA1 : Json :=
  .obj [("auctionId", .str "a1"), ("auctionHouseUri", .str "http://house"),
        ("jobType", .str "testJob"), ("status", .str "OPEN"),
        ("deadline", .str "2026-01-01T00:00:00Z")]

/-- The enveloped form of the auction list:
`{version: 1, data: {auctions: [...]}}`. -/
def envelopeBodyA1 : Json :=
  .obj [("version", .num 1), ("data", .obj [("auctions", .arr [openAuctionA1])])]

/-- An MQTT envelope `{data: {auction: {...}}}` around `openAuctionA1`. -/
def mqttEnvA1 : Json :=
  .obj [("data", .obj [("auction", openAuctionA1)])]

/-! Helper lemmas. -/

theorem data_append (s t : String) : (s ++ t).data = s.data ++ t.data := by
  cases s; cases t; rfl

theorem endsWithSlash_append_slash (s : String) : endsWithSlash (s ++ "/") = true := by
  simp [endsWithSlash, data_append, List.getLast?_concat]

theorem ok_false_ne_ok_true : (Except.ok false : Except PyExc Bool) ≠ .ok true :=
  fun h => Bool.noConfusion (Except.ok.inj h)

theorem place_bid_requests_eq (cfg : Config) (a : Json) (net : Option Nat) :
    (place_bid_on_auction cfg a net).requests = (place_bid_attempt cfg a net).1 := by
  unfold place_bid_on_auction
  rcases h : place_bid_attempt cfg a net with ⟨reqs, out⟩
  cases out <;> simp

/-- Anatomy of a bid request actually issued by `place_bid_on_auction`: it
carries the raw `auctionId` of the auction dictionary, the configured
bidder fields, and the URL built from the normalized `auctionHouseUri`,
which must have been a string. -/
theorem place_bid_mem (cfg : Config) (fields : List (String × Json))
    (net : Option Nat) (r : BidRequest)
    (hr : r ∈ (place_bid_on_auction cfg (.obj fields) net).requests) :
    r.auctionId = pyLookup fields "auctionId"
    ∧ r.bidderName = cfg.name
    ∧ r.bidderAuctionHouseUri = cfg.baseUrl ++ "/"
    ∧ is_supported_job cfg (pyLookup fields "jobType") = .ok true
    ∧ ∃ u, pyLookup fields "auctionHouseUri" = Json.str u
        ∧ r.url = ensure_trailing_slash u ++ "auctions/"
            ++ (pyLookup fields "auctionId").pyStr ++ "/bid" := by
  rw [place_bid_requests_eq] at hr
  simp only [place_bid_attempt] at hr
  split at hr
  · simp at hr
  · split at hr
    · simp at hr
    · simp at hr
    · rename_i hsup
      split at hr
      · rename_i u hu
        split at hr <;>
        · simp only [List.mem_singleton] at hr
          subst hr
          exact ⟨rfl, rfl, rfl, hsup, u, hu, rfl⟩
      · simp at hr

/-- `place_bid_on_auction` issues no POST when the auction's `jobType` is
not positively supported — whether the eligibility check returned `False`
or raised a `TypeError` (which the surrounding `except` catches). -/
theorem place_bid_unsupported (cfg : Config) (fields : List (String × Json))
    (net : Option Nat)
    (h : is_supported_job cfg (pyLookup fields "jobType") ≠ .ok true) :
    (place_bid_on_auction cfg (.obj fields) net).requests = [] := by
  rw [place_bid_requests_eq]
  simp only [place_bid_attempt]
  split
  · rfl
  · split
    · rfl
    · rfl
    · rename_i hsup
      exact absurd hsup h

theorem jobsLookup_filter_ne (jobs : List (String × JobRecord)) (k : String) :
    jobsLookup (jobs.filter (fun p => !(p.1 == k))) k = none := by
  unfold jobsLookup
  rw [List.find?_eq_none.mpr]
  · rfl
  · intro x hx
    have hne := (List.mem_filter.mp hx).2
    simp only [Bool.not_eq_true'] at hne
    simp [hne]

theorem jobsLookup_store (jobs : List (String × JobRecord)) (k : String)
    (v : JobRecord) : jobsLookup (jobsStore jobs k v) k = some v := by
  simp [jobsLookup, jobsStore, List.find?]

theorem jobsLookup_remove_store (jobs : List (String × JobRecord)) (k : String)
    (v : JobRecord) : jobsLookup (jobsRemove (jobsStore jobs k v) k) k = none := by
  unfold jobsRemove
  split
  · exact jobsLookup_filter_ne _ _
  · rename_i h
    exfalso
    simp [jobsStore, List.find?] at h

theorem place_bid_attempt_len (cfg : Config) (a : Json) (net : Option Nat) :
    (place_bid_attempt cfg a net).1.length ≤ 1 := by
  cases a <;> simp only [place_bid_attempt] <;> try simp
  split
  · simp
  · split
    · simp
    · simp
    · split
      · split <;> simp
      · simp

theorem place_bid_success_iff (cfg : Config) (a : Json) (net : Option Nat) :
    (place_bid_on_auction cfg a net).success = true ↔
      net = some 201 ∧ (place_bid_on_auction cfg a net).requests ≠ [] := by
  unfold place_bid_on_auction
  cases a <;> simp only [place_bid_attempt] <;> try simp
  split
  case _ reqs b heq =>
    split at heq
    · simp_all
    · split at heq
      · simp_all
      · simp_all
      · split at heq
        · rcases net with _ | code
          · simp_all
          · simp only [Prod.mk.injEq, Except.ok.injEq] at heq
            rcases heq with ⟨h1, h2⟩
            subst h1; subst h2
            simp
        · simp_all
  case _ reqs e heq =>
    split at heq
    · simp_all
    · split at heq
      · simp_all
      · simp_all
      · split at heq
        · rcases net with _ | code <;> simp_all
        · simp_all

theorem place_bid_catches (cfg : Config) (a : Json) (net : Option Nat) (e : PyExc)
    (h : (place_bid_attempt cfg a net).2 = .error e) :
    place_bid_on_auction cfg a net = ⟨(place_bid_attempt cfg a net).1, false⟩ := by
  unfold place_bid_on_auction
  rcases hpa : place_bid_attempt cfg a net with ⟨reqs, out⟩
  cases out
  · rfl
  · rw [hpa] at h
    simp at h

/-- C7: `place_bid_on_auction` treats exactly HTTP 201 as success; it issues
at most one POST (no retry), and every exception the attempt can raise —
including a network failure of the POST itself — is caught, so the
function returns normally for every input. -/
theorem c7_place_bid_error_handling (cfg : Config) (auction : Json) (net : Option Nat) :
    (place_bid_on_auction cfg auction net).requests.length ≤ 1
    ∧ ((place_bid_on_auction cfg auction net).success = true ↔
        net = some 201 ∧ (place_bid_on_auction cfg auction net).requests ≠ [])
    ∧ (∀ e, (place_bid_attempt cfg auction net).2 = .error e →
        place_bid_on_auction cfg auction net =
          ⟨(place_bid_attempt cfg auction net).1, false⟩) := by
  refine ⟨?_, place_bid_success_iff cfg auction net, fun e h => place_bid_catches cfg auction net e h⟩
  rw [place_bid_requests_eq]
  exact place_bid_attempt_len cfg auction net

/-- C7 witness: at the auction `{auctionId: "a1", auctionHouseUri: 5,
jobType: "testJob"}` the attempt raises an `AttributeError` (calling
`.endswith` on the integer), and the wrapped function still returns
normally with no request issued and no success. -/
theorem c7_witness :
    place_bid_on_auction cfgTest
        (.obj [("auctionId", .str "a1"), ("auctionHouseUri", .num 5),
               ("jobType", .str "testJob")]) (some 201) =
      ⟨[], false⟩ :=
  (c7_place_bid_error_handling cfgTest
      (.obj [("auctionId", .str "a1"), ("auctionHouseUri", .num 5),
             ("jobType", .str "testJob")]) (some 201)).2.2 .attributeError rfl

/-- C2: evaluation of the `POST /bidders` handler at the scenario input
`{auctionId: "a1", auctionHouseUri: "http://house", jobType: "testJob"}`
with supported types `{testJob}`: the handler returns 201 echoing the
body and `"a1"` enters the ledger, but it issues NO outbound bid POST —
the auction dictionary it builds omits `jobType`, so
`place_bid_on_auction` skips the auction as unsupported.  This contradicts
the claimed (and documented) behaviour of issuing
`POST http://house/auctions/a1/bid`. -/
theorem c2_scenario_divergence :
    handle_auction_started cfgTest pushBodyA1 [] (some 201) =
      ⟨[Json.str "a1"], 201, [], some pushBodyA1⟩ := by
  rfl

/-- C9 counterexample: the `test_rest.py` variant builds the outbound bid
URL by concatenating the configured base with `/auctions/{id}/bid` without
normalizing; with a base that already ends in a slash the resulting URL
`http://h//auctions/a1/bid` is not the normalized form. -/
theorem c9_counterexample :
    (test_rest_place_bid ⟨"test-client", "http://localhost:8091", "http://h/", ["testJob"]⟩
        (.obj [("auctionId", .str "a1")]) (some 201)).requests =
      [⟨"http://h//auctions/a1/bid", .str "a1", "test-client", "http://localhost:8091/"⟩]
    ∧ "http://h//auctions/a1/bid" ≠
        ensure_trailing_slash "http://h/" ++ "auctions/" ++ "a1" ++ "/bid" := by
  exact ⟨rfl, by decide⟩

/-- C9 (amended): `ensure_trailing_slash` maps `http://h` and `http://h/`
to `http://h/` and is idempotent; in `app.py` every outbound bid URL and
job-result URL is the normalized `auctionHouseUri` followed by the fixed
path segment and the auction id.  The `test_rest.py` variant instead
concatenates the configured base URL with `/auctions/{id}/bid` without
normalizing, which coincides with the normalized form only when the base
does not already end in a slash. -/
theorem c9_url_normalization :
    (ensure_trailing_slash "http://h" = "http://h/"
      ∧ ensure_trailing_slash "http://h/" = "http://h/"
      ∧ ∀ s, ensure_trailing_slash (ensure_trailing_slash s) = ensure_trailing_slash s)
    ∧ (∀ cfg fields net r u, pyLookup fields "auctionHouseUri" = Json.str u →
        r ∈ (place_bid_on_auction cfg (.obj fields) net).requests →
        r.url = ensure_trailing_slash u ++ "auctions/"
          ++ (pyLookup fields "auctionId").pyStr ++ "/bid")
    ∧ (∀ cfg auction_id fields now net st p u,
        pyLookup fields "auctionHouseUri" = Json.str u →
        p ∈ (handle_job_assignment cfg auction_id (.obj fields) now net st).posts →
        p.url = ensure_trailing_slash u ++ "auctions/" ++ auction_id ++ "/job")
    ∧ (∀ cfg fields net r, r ∈ (test_rest_place_bid cfg (.obj fields) net).requests →
        r.url = cfg.auctionHouseBaseUrl ++ "/auctions/"
            ++ (pyLookup fields "auctionId").pyStr ++ "/bid"
          ∧ (endsWithSlash cfg.auctionHouseBaseUrl = false →
              r.url = ensure_trailing_slash cfg.auctionHouseBaseUrl ++ "auctions/"
                ++ (pyLookup fields "auctionId").pyStr ++ "/bid")) := by
  refine ⟨⟨by decide, by decide, ?_⟩, ?_, ?_, ?_⟩
  · intro s
    unfold ensure_trailing_slash
    by_cases h : endsWithSlash s
    · simp [h]
    · simp only [Bool.not_eq_true] at h
      simp [h, endsWithSlash_append_slash]
  · intro cfg fields net r u hu hr
    obtain ⟨_, _, _, _, u2, hu2, hurl⟩ := place_bid_mem cfg fields net r hr
    rw [hu] at hu2
    injection hu2 with h2
    rw [hurl, h2]
  · intro cfg auction_id fields now net st p u hu hp
    simp only [handle_job_assignment, hu] at hp
    rcases net with _ | code
    · simp only [List.mem_singleton] at hp
      subst hp
      rfl
    · by_cases hc : (code == 201) = true <;>
      · simp only [hc, if_true, if_false, List.mem_singleton, Bool.false_eq_true] at hp
        subst hp
        rfl
  · intro cfg fields net r hr
    simp only [test_rest_place_bid] at hr
    split at hr
    · simp at hr
    · have hb : ∀ w : BidRequest,
          w.url = cfg.auctionHouseBaseUrl ++ "/auctions/"
              ++ (pyLookup fields "auctionId").pyStr ++ "/bid" →
          w.url = cfg.auctionHouseBaseUrl ++ "/auctions/"
              ++ (pyLookup fields "auctionId").pyStr ++ "/bid"
            ∧ (endsWithSlash cfg.auctionHouseBaseUrl = false →
                w.url = ensure_trailing_slash cfg.auctionHouseBaseUrl ++ "auctions/"
                  ++ (pyLookup fields "auctionId").pyStr ++ "/bid") := by
        intro w hw
        refine ⟨hw, fun hslash => ?_⟩
        rw [hw]
        unfold ensure_trailing_slash
        rw [hslash]
        simp only [Bool.not_false, if_true]
        rw [String.append_assoc cfg.auctionHouseBaseUrl "/" "auctions/"]
        rfl
      split at hr <;>
      · simp only [List.mem_singleton] at hr
        subst hr
        exact hb _ rfl

/-- C9 witness: applying the theorem at the default configuration and the
concrete auction `{auctionId: "a1", auctionHouseUri: "http://house",
jobType: "testJob"}` yields the normalized bid URL. -/
theorem c9_witness :
    (⟨"http://house/auctions/a1/bid", Json.str "a1", "test-client",
        "http://localhost:8091/"⟩ : BidRequest).url =
      ensure_trailing_slash "http://house" ++ "auctions/"
        ++ (pyLookup [("auctionId", Json.str "a1"),
              ("auctionHouseUri", Json.str "http://house"),
              ("jobType", Json.str "testJob")] "auctionId").pyStr ++ "/bid" := by
  exact c9_url_normalization.2.1 cfgTest
    [("auctionId", Json.str "a1"), ("auctionHouseUri", Json.str "http://house"),
     ("jobType", Json.str "testJob")] (some 201) _ "http://house" rfl (List.Mem.head _)

/-- Characterization of `is_supported_job`: a job type is supported —
the check returns `True` rather than `False` or raising — iff it is
truthy and either `SUPPORTED_JOB_TYPES` is empty or the job type is one
of its strings. -/
theorem is_supported_job_iff (cfg : Config) (jt : Json) :
    is_supported_job cfg jt = .ok true ↔
      jt.truthy = true
        ∧ (cfg.supported = [] ∨ ∃ s, jt = Json.str s ∧ s ∈ cfg.supported) := by
  unfold is_supported_job
  cases jt <;> repeat' split <;>
    simp_all [Json.truthy, Json.hashable, List.isEmpty_iff, List.elem_iff] <;>
    tauto

/-- An unsupported job type (relative to a non-empty supported set) never
makes the eligibility check succeed: it returns `False` or raises, but
does not return `True`. -/
theorem is_supported_job_outside (cfg : Config) (hne : cfg.supported ≠ [])
    (jt : Json) (hout : ∀ s, jt = Json.str s → s ∉ cfg.supported) :
    is_supported_job cfg jt ≠ .ok true := by
  intro h
  rcases (is_supported_job_iff cfg jt).mp h with ⟨_, hemp | ⟨s, rfl, hs⟩⟩
  · exact hne hemp
  · exact hout s rfl hs

/-- C3: the eligibility filter is exactly "jobType truthy and (supported
set empty or jobType among its strings)", and an auction whose `jobType`
lies outside a non-empty supported set is never bid on by any source:
`place_bid_on_auction` itself, the MQTT handler, the poller, and the push
endpoint (which never bids at all) all issue no POST for it. -/
theorem c3_eligibility_filter :
    (∀ cfg jt, is_supported_job cfg jt = .ok true ↔
        jt.truthy = true
          ∧ (cfg.supported = [] ∨ ∃ s, jt = Json.str s ∧ s ∈ cfg.supported))
    ∧ (∀ cfg, cfg.supported ≠ [] →
        ∀ jt, (∀ s, jt = Json.str s → s ∉ cfg.supported) →
        (∀ fields net, pyLookup fields "jobType" = jt →
            (place_bid_on_auction cfg (.obj fields) net).requests = [])
        ∧ (∀ afields st net, pyLookup afields "jobType" = jt →
            (handle_mqtt_message cfg
                (some (.obj [("data", .obj [("auction", .obj afields)])]))
                st net).bids = [])
        ∧ (∀ fields st net, pyLookup fields "jobType" = jt →
            (poll_process_auctions cfg net [.obj fields] st).2 = [])
        ∧ (∀ body st net, (handle_auction_started cfg body st net).bids = [])) := by
  refine ⟨is_supported_job_iff, ?_⟩
  intro cfg hne jt hout
  have hsup : is_supported_job cfg jt ≠ .ok true :=
    is_supported_job_outside cfg hne jt hout
  refine ⟨?_, ?_, ?_, ?_⟩
  · intro fields net hjt
    exact place_bid_unsupported cfg fields net (by rw [hjt]; exact hsup)
  · intro afields st net hjt
    have hd : pyLookupD [("data", Json.obj [("auction", Json.obj afields)])] "data"
        (Json.obj []) = Json.obj [("auction", Json.obj afields)] := rfl
    have ha : pyLookup [("auction", Json.obj afields)] "auction" = Json.obj afields := rfl
    rcases hcase : is_supported_job cfg jt with e | b
    · simp only [handle_mqtt_message, hd, ha, hjt, hcase]
      split
      · rfl
      · split
        · rfl
        · split
          · rfl
          · split <;> rfl
    · cases b
      · simp only [handle_mqtt_message, hd, ha, hjt, hcase]
        split
        · rfl
        · split
          · rfl
          · split
            · rfl
            · split <;> rfl
      · exact absurd hcase hsup
  · intro fields st net hjt
    rcases hcase : is_supported_job cfg jt with e | b
    · simp only [poll_process_auctions, hjt, hcase]
      split
      · split
        · split <;> rfl
        · rfl
      · rfl
    · cases b
      · simp only [poll_process_auctions, hjt, hcase]
        split
        · split
          · split <;> rfl
          · rfl
        · rfl
      · exact absurd hcase hsup
  · intro body st net
    cases body <;> try rfl
    simp only [handle_auction_started]
    split <;> exact place_bid_unsupported cfg _ net ok_false_ne_ok_true

/-- C3 witness: with the default configuration (supported set `{testJob}`)
and the job type `otherJob`, the MQTT envelope for an `otherJob` auction
yields no bid. -/
theorem c3_witness :
    (handle_mqtt_message cfgTest
        (some (.obj [("data", .obj [("auction",
          .obj [("auctionId", Json.str "a9"), ("jobType", Json.str "otherJob")])])]))
        [] (some 201)).bids = [] := by
  exact ((c3_eligibility_filter.2 cfgTest (by simp [cfgTest]) (Json.str "otherJob")
      (by intro s hs hmem; cases hs; simp [cfgTest] at hmem)).2.1
    [("auctionId", Json.str "a9"), ("jobType", Json.str "otherJob")] [] (some 201) rfl)

/-- C10: the job-assignment handler never consults the bid ledger: the
ledger passes through unchanged, the handler's observable behaviour is
identical for any two ledgers, and for every request with a string
`auctionHouseUri` — including one for an auction id never bid on — the
record is stored (or overwritten) and exactly one result submission is
issued, the record surviving iff the submission did not return 201. -/
theorem c10_job_assignment_ignores_ledger :
    (∀ cfg auction_id body now net st,
        (handle_job_assignment cfg auction_id body now net st).state.ledger = st.ledger)
    ∧ (∀ cfg auction_id body now net L1 L2 jobs,
        (handle_job_assignment cfg auction_id body now net ⟨L1, jobs⟩).state.jobs =
            (handle_job_assignment cfg auction_id body now net ⟨L2, jobs⟩).state.jobs
          ∧ (handle_job_assignment cfg auction_id body now net ⟨L1, jobs⟩).status =
              (handle_job_assignment cfg auction_id body now net ⟨L2, jobs⟩).status
          ∧ (handle_job_assignment cfg auction_id body now net ⟨L1, jobs⟩).posts =
              (handle_job_assignment cfg auction_id body now net ⟨L2, jobs⟩).posts)
    ∧ (∀ cfg auction_id fields now net st u,
        pyLookup fields "auctionHouseUri" = Json.str u →
        (handle_job_assignment cfg auction_id (.obj fields) now net st).posts.length = 1
          ∧ jobsLookup (handle_job_assignment cfg auction_id (.obj fields) now net
              st).state.jobs auction_id =
            (if net == some 201 then none
             else some ⟨pyLookup fields "jobType", pyLookup fields "inputData",
                 Json.str u, now⟩)) := by
  refine ⟨?_, ?_, ?_⟩
  · intro cfg auction_id body now net st
    cases body <;> try rfl
    simp only [handle_job_assignment]
    split
    · split
      · rfl
      · split <;> rfl
    · rfl
  · intro cfg auction_id body now net L1 L2 jobs
    refine ⟨?_, ?_, ?_⟩ <;>
    · cases body <;> try rfl
      simp only [handle_job_assignment]
      split
      · split
        · rfl
        · split <;> rfl
      · rfl
  · intro cfg auction_id fields now net st u hu
    rcases net with _ | code
    · simp only [handle_job_assignment, hu]
      exact ⟨rfl, (jobsLookup_store _ _ _)⟩
    · by_cases hc : (code == 201) = true
      · have hc2 : code = 201 := by simpa using hc
        subst hc2
        simp only [handle_job_assignment, hu]
        refine ⟨rfl, ?_⟩
        exact jobsLookup_remove_store st.jobs auction_id
          ⟨pyLookup fields "jobType", pyLookup fields "inputData", Json.str u, now⟩
      · have hcb : (code == 201) = false := by simpa using hc
        simp only [handle_job_assignment, hu, hcb, Bool.false_eq_true, if_false]
        refine ⟨rfl, ?_⟩
        rw [jobsLookup_store]
        have : (some code == some 201) = false := by simpa using hc
        rw [this]
        rfl

/-- C10 witness: a job assignment for the auction id `never-bid`, absent
from every ledger, is accepted, stored and submitted exactly like any
other; with a failing downstream it is retained. -/
theorem c10_witness :
    (handle_job_assignment cfgTest "never-bid"
        (.obj [("jobType", .str "testJob"), ("inputData", .null),
               ("auctionHouseUri", .str "http://house")]) "t1" (some 500)
        ⟨[Json.str "a1"], []⟩).posts.length = 1
    ∧ jobsLookup (handle_job_assignment cfgTest "never-bid"
        (.obj [("jobType", .str "testJob"), ("inputData", .null),
               ("auctionHouseUri", .str "http://house")]) "t1" (some 500)
        ⟨[Json.str "a1"], []⟩).state.jobs "never-bid" =
      some ⟨Json.str "testJob", Json.null, Json.str "http://house", "t1"⟩ := by
  have h := (c10_job_assignment_ignores_ledger.2.2 cfgTest "never-bid"
      [("jobType", .str "testJob"), ("inputData", .null),
       ("auctionHouseUri", .str "http://house")] "t1" (some 500)
      ⟨[Json.str "a1"], []⟩ "http://house" rfl)
  exact ⟨h.1, by rw [h.2]; rfl⟩

theorem ets_ne_empty (u : String) : ensure_trailing_slash u ≠ "" := by
  have hdata : (ensure_trailing_slash u).data ≠ [] := by
    unfold ensure_trailing_slash
    split
    · rw [data_append]; simp
    · rename_i h
      have h2 : endsWithSlash u = true := by
        revert h; cases endsWithSlash u <;> simp
      unfold endsWithSlash at h2
      simp only [decide_eq_true_eq] at h2
      intro hnil
      rw [hnil] at h2
      simp at h2
  intro h
  apply hdata
  rw [h]

/-- When the guards hold — truthy id, a non-empty string house URI and a
supported job type — `place_bid_on_auction` issues exactly one POST,
whatever the network outcome. -/
theorem place_bid_issues_one (cfg : Config) (F : List (String × Json)) (net : Option Nat)
    (h1 : (pyLookup F "auctionId").truthy = true)
    (u : String) (hu : pyLookup F "auctionHouseUri" = Json.str u) (hne : u ≠ "")
    (h3 : is_supported_job cfg (pyLookup F "jobType") = .ok true) :
    (place_bid_on_auction cfg (.obj F) net).requests.length = 1 := by
  rw [place_bid_requests_eq]
  have htr : (Json.str u).truthy = true := by simp [Json.truthy, hne]
  simp only [place_bid_attempt, hu, h3]
  rcases net <;> simp [h1, htr]

/-- C5 counterexample: two violations of the claimed guard discipline.
The push endpoint adds `a1` to the ledger although the auction was
rejected (no bid was issued, its job type being dropped); and the poller,
for an auction that passes all three claimed guards but carries no
`auctionHouseUri`, marks the ledger while issuing no bid. -/
theorem c5_counterexample :
    ((handle_auction_started cfgTest
        (.obj [("auctionId", .str "a1"), ("auctionHouseUri", .str "http://house"),
               ("jobType", .str "weird")]) [] (some 201)).bids = []
      ∧ (handle_auction_started cfgTest
          (.obj [("auctionId", .str "a1"), ("auctionHouseUri", .str "http://house"),
                 ("jobType", .str "weird")]) [] (some 201)).ledger = [Json.str "a1"])
    ∧ poll_process_auctions cfgTest (some 201)
        [.obj [("auctionId", .str "a2"), ("status", .str "OPEN"),
               ("jobType", .str "testJob")]] [] = ([Json.str "a2"], []) := by
  exact ⟨⟨rfl, rfl⟩, rfl⟩

/-- C5 (amended): the MQTT handler and the poller apply the guards in the
stated order — reject on falsy `auctionId`, reject when the id is already
in the ledger, reject when the eligibility check returns `False` (the
poller first requiring status `OPEN`; an eligibility check that raises
`TypeError` instead escapes the MQTT handler and aborts the poll cycle) —
and when every guard passes they mark the ledger regardless of the bid
call's outcome, the bid POST being issued provided the event carries a
usable string `auctionHouseUri` (the MQTT handler substitutes the
configured default).  The push endpoint applies none of these guards: it
never issues a bid POST itself and it marks the ledger with the request's
`auctionId` unconditionally, even for rejected or ineligible auctions. -/
theorem c5_guard_order :
    (∀ cfg st net afields,
      ((pyLookup afields "auctionId").truthy = false →
        handle_mqtt_message cfg (some (.obj [("data", .obj [("auction", .obj afields)])]))
          st net = ⟨st, [], none⟩)
      ∧ ((pyLookup afields "auctionId").truthy = true →
          (pyLookup afields "auctionId").hashable = true →
          ledgerContains st (pyLookup afields "auctionId") = true →
          handle_mqtt_message cfg (some (.obj [("data", .obj [("auction", .obj afields)])]))
            st net = ⟨st, [], none⟩)
      ∧ ((pyLookup afields "auctionId").truthy = true →
          (pyLookup afields "auctionId").hashable = true →
          ledgerContains st (pyLookup afields "auctionId") = false →
          is_supported_job cfg (pyLookup afields "jobType") = .ok false →
          handle_mqtt_message cfg (some (.obj [("data", .obj [("auction", .obj afields)])]))
            st net = ⟨st, [], none⟩)
      ∧ (∀ e, (pyLookup afields "auctionId").truthy = true →
          (pyLookup afields "auctionId").hashable = true →
          ledgerContains st (pyLookup afields "auctionId") = false →
          is_supported_job cfg (pyLookup afields "jobType") = .error e →
          handle_mqtt_message cfg (some (.obj [("data", .obj [("auction", .obj afields)])]))
            st net = ⟨st, [], some e⟩)
      ∧ (∀ u, (pyLookup afields "auctionId").truthy = true →
          (pyLookup afields "auctionId").hashable = true →
          ledgerContains st (pyLookup afields "auctionId") = false →
          is_supported_job cfg (pyLookup afields "jobType") = .ok true →
          pyLookupD afields "auctionHouseUri" (.str cfg.auctionHouseBaseUrl) = Json.str u →
          (handle_mqtt_message cfg (some (.obj [("data", .obj [("auction", .obj afields)])]))
              st net).ledger = pyLookup afields "auctionId" :: st
          ∧ (handle_mqtt_message cfg (some (.obj [("data", .obj [("auction", .obj afields)])]))
              st net).bids.length = 1
          ∧ (handle_mqtt_message cfg (some (.obj [("data", .obj [("auction", .obj afields)])]))
              st net).exc = none))
    ∧ (∀ cfg st net fields,
      ((pyEqStr (pyLookup fields "status") "OPEN" && (pyLookup fields "auctionId").truthy)
          = false →
        poll_process_auctions cfg net [.obj fields] st = (st, []))
      ∧ ((pyEqStr (pyLookup fields "status") "OPEN" && (pyLookup fields "auctionId").truthy)
          = true →
          (pyLookup fields "auctionId").hashable = true →
          ledgerContains st (pyLookup fields "auctionId") = true →
          poll_process_auctions cfg net [.obj fields] st = (st, []))
      ∧ ((pyEqStr (pyLookup fields "status") "OPEN" && (pyLookup fields "auctionId").truthy)
          = true →
          (pyLookup fields "auctionId").hashable = true →
          ledgerContains st (pyLookup fields "auctionId") = false →
          is_supported_job cfg (pyLookup fields "jobType") = .ok false →
          poll_process_auctions cfg net [.obj fields] st = (st, []))
      ∧ (∀ e, (pyEqStr (pyLookup fields "status") "OPEN" && (pyLookup fields "auctionId").truthy)
          = true →
          (pyLookup fields "auctionId").hashable = true →
          ledgerContains st (pyLookup fields "auctionId") = false →
          is_supported_job cfg (pyLookup fields "jobType") = .error e →
          poll_process_auctions cfg net [.obj fields] st = (st, []))
      ∧ ((pyEqStr (pyLookup fields "status") "OPEN" && (pyLookup fields "auctionId").truthy)
          = true →
          (pyLookup fields "auctionId").hashable = true →
          ledgerContains st (pyLookup fields "auctionId") = false →
          is_supported_job cfg (pyLookup fields "jobType") = .ok true →
          (poll_process_auctions cfg net [.obj fields] st).1 =
            pyLookup fields "auctionId" :: st
          ∧ (∀ u, pyLookup fields "auctionHouseUri" = Json.str u → u ≠ "" →
              (poll_process_auctions cfg net [.obj fields] st).2.length = 1)))
    ∧ (∀ cfg st net fields,
      (handle_auction_started cfg (.obj fields) st net).bids = []
      ∧ ((pyLookup fields "auctionId").hashable = true →
          (handle_auction_started cfg (.obj fields) st net).ledger =
            (if ledgerContains st (pyLookup fields "auctionId") then st
             else pyLookup fields "auctionId" :: st))) := by
  refine ⟨?_, ?_, ?_⟩
  · intro cfg st net afields
    have hd : pyLookupD [("data", Json.obj [("auction", Json.obj afields)])] "data"
        (Json.obj []) = Json.obj [("auction", Json.obj afields)] := rfl
    have ha : pyLookup [("auction", Json.obj afields)] "auction" = Json.obj afields := rfl
    have hne : ∀ h : (pyLookup afields "auctionId").truthy = true,
        (Json.obj afields).truthy = true := by
      intro h
      cases afields with
      | nil => simp [pyLookup, List.find?, Json.truthy] at h
      | cons p ps => simp [Json.truthy]
    refine ⟨?_, ?_, ?_, ?_, ?_⟩
    · intro h1
      simp [handle_mqtt_message, hd, ha, h1]
    · intro h1 h2 h3
      simp [handle_mqtt_message, hd, ha, hne h1, h1, h2, h3]
    · intro h1 h2 h3 h4
      simp [handle_mqtt_message, hd, ha, hne h1, h1, h2, h3, h4]
    · intro e h1 h2 h3 h4
      simp [handle_mqtt_message, hd, ha, hne h1, h1, h2, h3, h4]
    · intro u h1 h2 h3 h4 hu
      simp only [handle_mqtt_message, hd, ha, hne h1, h1, h2, h3, h4, hu, Bool.not_true,
        Bool.not_false, Bool.false_eq_true, if_false, if_true]
      refine ⟨trivial, ?_, trivial⟩
      exact place_bid_issues_one cfg _ net h1 (ensure_trailing_slash u) rfl
        (ets_ne_empty u) h4
  · intro cfg st net fields
    refine ⟨?_, ?_, ?_, ?_, ?_⟩
    · intro h1
      simp [poll_process_auctions, h1]
    · intro h1 h2 h3
      simp [poll_process_auctions, h1, h2, h3]
    · intro h1 h2 h3 h4
      simp [poll_process_auctions, h1, h2, h3, h4]
    · intro e h1 h2 h3 h4
      simp [poll_process_auctions, h1, h2, h3, h4]
    · intro h1 h2 h3 h4
      constructor
      · simp [poll_process_auctions, h1, h2, h3, h4]
      · intro u hu hune
        simp only [poll_process_auctions, h1, h2, h3, h4, Bool.not_false,
          Bool.false_eq_true, if_false, if_true]
        have hone := place_bid_issues_one cfg fields net
          (by rw [Bool.and_eq_true] at h1; exact h1.2) u hu hune h4
        simp [hone]
  · intro cfg st net fields
    constructor
    · simp only [handle_auction_started]
      split <;> exact place_bid_unsupported cfg _ net ok_false_ne_ok_true
    · intro hh
      simp [handle_auction_started, hh]

/-- C5 witness: on an empty ledger the MQTT envelope for the open,
supported auction `a1` passes every guard; even with a failing bid call
(status 404) the ledger is marked and exactly one bid POST was issued. -/
theorem c5_witness :
    (handle_mqtt_message cfgTest (some mqttEnvA1) [] (some 404)).ledger = [Json.str "a1"]
    ∧ (handle_mqtt_message cfgTest (some mqttEnvA1) [] (some 404)).bids.length = 1
    ∧ (handle_mqtt_message cfgTest (some mqttEnvA1) [] (some 404)).exc = none := by
  exact (c5_guard_order.1 cfgTest [] (some 404)
      [("auctionId", .str "a1"), ("auctionHouseUri", .str "http://house"),
       ("jobType", .str "testJob"), ("status", .str "OPEN"),
       ("deadline", .str "2026-01-01T00:00:00Z")]).2.2.2.2
    "http://house" rfl rfl rfl rfl rfl

/-- C6 counterexample: the `app.py` poller does not accept the enveloped
list format — handed the envelope around an open, supported auction it
produces no descriptor and no bid (the iteration over the object fails and
the cycle is dropped), while the bare array around the very same auction
produces the bid. -/
theorem c6_counterexample :
    poll_handle_body cfgTest (some 201) envelopeBodyA1 [] = ([], [])
    ∧ poll_handle_body cfgTest (some 201) (.arr [openAuctionA1]) [] =
        ([Json.str "a1"],
         [⟨"http://house/auctions/a1/bid", .str "a1", "test-client",
           "http://localhost:8091/"⟩]) :=
  ⟨rfl, rfl⟩

/-- C6 (amended): the two poller variants accept disjoint list formats.
The `app.py` poller processes only a bare JSON array — any other body
(the envelope object in particular, but also scalars) yields no bids and
leaves the ledger unchanged — and within a bare array, every element
whose turn is reached and which has status `OPEN`, a truthy hashable
`auctionId` not in the ledger, and a supported `jobType` is handed to the
bid call with the ledger marked.  The `test_rest.py` poller processes
only the versioned envelope: a bare array aborts its assertions, any
valid envelope is dispatched to the same per-element loop, and there
every element passing the `OPEN`/id/ledger/`testJob` guards is handed to
its bid call with the ledger marked. -/
theorem c6_poll_parsing :
    (∀ cfg net st fs, poll_handle_body cfg net (.obj fs) st = (st, []))
    ∧ (∀ cfg net st, poll_handle_body cfg net .null st = (st, []))
    ∧ (∀ cfg net st n, poll_handle_body cfg net (.num n) st = (st, []))
    ∧ (∀ cfg net st s, poll_handle_body cfg net (.str s) st = (st, []))
    ∧ (∀ cfg net st fields rest,
        (pyEqStr (pyLookup fields "status") "OPEN"
          && (pyLookup fields "auctionId").truthy) = true →
        (pyLookup fields "auctionId").hashable = true →
        ledgerContains st (pyLookup fields "auctionId") = false →
        is_supported_job cfg (pyLookup fields "jobType") = .ok true →
        poll_process_auctions cfg net (.obj fields :: rest) st =
          ((poll_process_auctions cfg net rest (pyLookup fields "auctionId" :: st)).1,
           (place_bid_on_auction cfg (.obj fields) net).requests
             ++ (poll_process_auctions cfg net rest
                  (pyLookup fields "auctionId" :: st)).2))
    ∧ (poll_handle_body cfgTest (some 201) (.arr [openAuctionA1]) [] =
        ([Json.str "a1"],
         [⟨"http://house/auctions/a1/bid", .str "a1", "test-client",
           "http://localhost:8091/"⟩]))
    ∧ (∀ cfg net st xs, test_rest_poll_handle_body cfg net (.arr xs) st = (st, []))
    ∧ (∀ cfg net st fs dfs xs,
        pyEqNum (pyLookup fs "version") 1 = true →
        pyLookup fs "data" = Json.obj dfs →
        pyLookup dfs "auctions" = Json.arr xs →
        xs.all auctionEntryValid = true →
        test_rest_poll_handle_body cfg net (.obj fs) st =
          test_rest_process_auctions cfg net xs st)
    ∧ (∀ cfg net st fields rest,
        (pyEqStr (pyLookup fields "status") "OPEN"
          && (pyLookup fields "auctionId").truthy) = true →
        (pyLookup fields "auctionId").hashable = true →
        (!(ledgerContains st (pyLookup fields "auctionId"))
          && pyEqStr (pyLookup fields "jobType") "testJob") = true →
        test_rest_process_auctions cfg net (.obj fields :: rest) st =
          ((test_rest_process_auctions cfg net rest
              (pyLookup fields "auctionId" :: st)).1,
           (test_rest_place_bid cfg (.obj fields) net).requests
             ++ (test_rest_process_auctions cfg net rest
                  (pyLookup fields "auctionId" :: st)).2))
    ∧ (test_rest_poll_handle_body cfgTest (some 201) envelopeBodyA1 [] =
        ([Json.str "a1"],
         [⟨"http://localhost:8090/auctions/a1/bid", .str "a1", "test-client",
           "http://localhost:8091/"⟩])) := by
  refine ⟨fun _ _ _ _ => rfl, fun _ _ _ => rfl, fun _ _ _ _ => rfl,
    fun _ _ _ _ => rfl, ?_, rfl, fun _ _ _ _ => rfl, ?_, ?_, rfl⟩
  · intro cfg net st fields rest h1 h2 h3 h4
    simp [poll_process_auctions, h1, h2, h3, h4]
  · intro cfg net st fs dfs xs hv hdata hauctions hall
    simp [test_rest_poll_handle_body, hv, hdata, hauctions, hall]
  · intro cfg net st fields rest h1 h2 h3
    simp [test_rest_process_auctions, h1, h2, h3]

/-- C6 witness: the open, supported auction `a1` at the head of a poll
batch, on an empty ledger, is handed to the bid call and the ledger is
marked. -/
theorem c6_witness :
    poll_process_auctions cfgTest (some 201) [openAuctionA1] [] =
      ((poll_process_auctions cfgTest (some 201) [] [Json.str "a1"]).1,
       (place_bid_on_auction cfgTest openAuctionA1 (some 201)).requests
         ++ (poll_process_auctions cfgTest (some 201) [] [Json.str "a1"]).2) := by
  exact c6_poll_parsing.2.2.2.2.1 cfgTest (some 201) []
    [("auctionId", .str "a1"), ("auctionHouseUri", .str "http://house"),
     ("jobType", .str "testJob"), ("status", .str "OPEN"),
     ("deadline", .str "2026-01-01T00:00:00Z")] [] rfl rfl rfl rfl

/-- C8 counterexample: the payload `[]` is valid JSON, so the handler's
`json.JSONDecodeError` catch does not apply; calling `.get` on the decoded
list raises an `AttributeError` that escapes `handle_mqtt_message`. -/
theorem c8_counterexample :
    handle_mqtt_message cfgTest (some (.arr [])) [] (some 201) =
      ⟨[], [], some .attributeError⟩ :=
  rfl

/-- Whenever `handle_mqtt_message` raises, it does so before any ledger
mutation and before any bid POST: the ledger is unchanged and no request
was issued. -/
theorem mqtt_raise_state_unchanged (cfg : Config) (d : Json) (st : Ledger)
    (net : Option Nat) :
    (handle_mqtt_message cfg (some d) st net).exc ≠ none →
    (handle_mqtt_message cfg (some d) st net).ledger = st
    ∧ (handle_mqtt_message cfg (some d) st net).bids = [] := by
  cases d
  case null => intro _; exact ⟨rfl, rfl⟩
  case bool => intro _; exact ⟨rfl, rfl⟩
  case num => intro _; exact ⟨rfl, rfl⟩
  case str => intro _; exact ⟨rfl, rfl⟩
  case arr => intro _; exact ⟨rfl, rfl⟩
  case obj dfs =>
  simp only [handle_mqtt_message]
  split
  case h_2 => intro _; exact ⟨rfl, rfl⟩
  case h_1 afs heq =>
  split
  case isTrue => intro hx; exact absurd rfl hx
  case isFalse h0 =>
  split
  case h_2 => intro _; exact ⟨rfl, rfl⟩
  case h_1 afields heq2 =>
  split
  case isTrue => intro hx; exact absurd rfl hx
  case isFalse h1 =>
  split
  case isTrue => intro _; exact ⟨rfl, rfl⟩
  case isFalse h2 =>
  split
  case isTrue => intro hx; exact absurd rfl hx
  case isFalse h3 =>
  split
  · intro _; exact ⟨rfl, rfl⟩
  · intro hx; exact absurd rfl hx
  · split
    · intro hx; exact absurd rfl hx
    · intro _; exact ⟨rfl, rfl⟩

/-- An envelope whose `data` field is anything but an object — whatever
that value is — makes the `.get("auction")` call raise an
`AttributeError` out of the handler. -/
theorem mqtt_data_not_object_raises (cfg : Config) (dfs : List (String × Json))
    (st : Ledger) (net : Option Nat)
    (hnd : ∀ fs, pyLookupD dfs "data" (.obj []) ≠ Json.obj fs) :
    handle_mqtt_message cfg (some (.obj dfs)) st net =
      ⟨st, [], some .attributeError⟩ := by
  simp only [handle_mqtt_message]

/-- C8 (amended): a payload that is not valid JSON is dropped with a
warning and the handler returns normally with the ledger unchanged; a
payload that is valid JSON but of the wrong shape — any non-object top
level (`null`, boolean, number, string or array), or any envelope whose
`data` field is not an object, whatever that value is — raises an
`AttributeError` out of the handler; it is the supervising reconnect
loop, not the handler, that keeps the subscriber alive; and whenever the
handler raises, the ledger is unchanged and no bid was issued. -/
theorem c8_mqtt_malformed_payloads :
    (∀ cfg st net, handle_mqtt_message cfg none st net = ⟨st, [], none⟩)
    ∧ (∀ cfg d st net, (handle_mqtt_message cfg (some d) st net).exc ≠ none →
        (handle_mqtt_message cfg (some d) st net).ledger = st
        ∧ (handle_mqtt_message cfg (some d) st net).bids = [])
    ∧ (∀ cfg st net, handle_mqtt_message cfg (some .null) st net =
        ⟨st, [], some .attributeError⟩)
    ∧ (∀ cfg st net b, handle_mqtt_message cfg (some (.bool b)) st net =
        ⟨st, [], some .attributeError⟩)
    ∧ (∀ cfg st net n, handle_mqtt_message cfg (some (.num n)) st net =
        ⟨st, [], some .attributeError⟩)
    ∧ (∀ cfg st net s, handle_mqtt_message cfg (some (.str s)) st net =
        ⟨st, [], some .attributeError⟩)
    ∧ (∀ cfg st net xs, handle_mqtt_message cfg (some (.arr xs)) st net =
        ⟨st, [], some .attributeError⟩)
    ∧ (∀ cfg dfs st net,
        (∀ fs, pyLookupD dfs "data" (.obj []) ≠ Json.obj fs) →
        handle_mqtt_message cfg (some (.obj dfs)) st net =
          ⟨st, [], some .attributeError⟩) :=
  ⟨fun _ _ _ => rfl, mqtt_raise_state_unchanged, fun _ _ _ => rfl,
   fun _ _ _ _ => rfl, fun _ _ _ _ => rfl, fun _ _ _ _ => rfl,
   fun _ _ _ _ => rfl, mqtt_data_not_object_raises⟩

/-- C8 witness: at the raising payload `[]` the ledger is unchanged and no
bid was issued. -/
theorem c8_witness :
    (handle_mqtt_message cfgTest (some (.arr [])) [] (some 201)).ledger = []
    ∧ (handle_mqtt_message cfgTest (some (.arr [])) [] (some 201)).bids = [] := by
  exact c8_mqtt_malformed_payloads.2.1 cfgTest (.arr []) [] (some 201) (by decide)

end AuctionClient
